import Mathlib

/-!
Verification of the Book Rental service domain core.

Shallow embedding of the Book and Rental mongoose models and of the
RentalController and BookController operations from the repository.
Dates are modelled as integer millisecond timestamps; the ambient clock
is passed explicitly as a parameter named now.  Persisted state is a
finite association list from numeric ids to documents.  Mongoose save
runs document validation first and the user pre-save hooks afterwards;
string-shape validators (name lengths, email shape, notes length) are
omitted because they are constant along the modelled flows and do not
interact with any claim.
-/

set_option autoImplicit false

namespace BookRental

/-- Ceiling of the rational a / b for a positive divisor b, as JavaScript
Math.ceil of the exact quotient computes it. -/
def ceilDiv (a b : Int) : Int := -((-a).fdiv b)

/-- Milliseconds in one day, the constant 1000 * 60 * 60 * 24 of the source. -/
def msPerDay : Int := 1000 * 60 * 60 * 24

/-- The status enum of the rental schema. -/
inductive RentalStatus where
  | active
  | returned
  | overdue
deriving DecidableEq

/-- The Book document: the fields of bookSchema that the domain logic reads
or writes.  Copy counts are JavaScript numbers, embedded as Int. -/
structure Book where
  totalCopies : Int
  availableCopies : Int
  isActive : Bool
deriving DecidableEq

namespace Book

/-- Virtual isAvailable of bookSchema. -/
def isAvailable (b : Book) : Bool := decide (0 < b.availableCopies)

/-- Method canBeRented: isActive and availableCopies strictly positive. -/
def canBeRented (b : Book) : Bool := b.isActive && decide (0 < b.availableCopies)

/-- The pre-save hook of bookSchema: clamp availableCopies down to
totalCopies when it exceeds it. -/
def preSave (b : Book) : Book :=
  if b.totalCopies < b.availableCopies then
    { b with availableCopies := b.totalCopies }
  else b

/-- Schema validation of the numeric fields: totalCopies between 1 and 1000,
availableCopies nonnegative. -/
def validateDoc (b : Book) : Bool :=
  decide (1 ≤ b.totalCopies) && decide (b.totalCopies ≤ 1000) &&
    decide (0 ≤ b.availableCopies)

/-- Document save: validation first, then the pre-save clamp hook. -/
def save (b : Book) : Except String Book :=
  if validateDoc b then .ok (preSave b) else .error "ValidationError"

/-- Method rentBook of bookSchema: guard on canBeRented, decrement, save. -/
def rentBook (b : Book) : Except String Book :=
  if !canBeRented b then .error "Book is not available for rental"
  else save { b with availableCopies := b.availableCopies - 1 }

/-- Method returnBook of bookSchema: guard that not all copies are already
available, increment, save. -/
def returnBook (b : Book) : Except String Book :=
  if b.availableCopies ≥ b.totalCopies then .error "All copies are already available"
  else save { b with availableCopies := b.availableCopies + 1 }

end Book

/-- The Rental document: the fields of rentalSchema that the domain logic
reads or writes.  The book field holds the id of the referenced Book. -/
structure Rental where
  book : Nat
  renterName : String
  renterEmail : String
  renterPhone : Option String
  rentalDate : Int
  dueDate : Int
  returnDate : Option Int
  status : RentalStatus
  lateFee : Int
  notes : Option String
deriving DecidableEq

namespace Rental

/-- Virtual daysOverdue: zero for a returned rental, otherwise the positive
part of the ceiling of (now - dueDate) in days.  The source reads the
current clock; it is passed here explicitly. -/
def daysOverdue (r : Rental) (now : Int) : Int :=
  if r.status = RentalStatus.returned then 0
  else if 0 < ceilDiv (now - r.dueDate) msPerDay then ceilDiv (now - r.dueDate) msPerDay
  else 0

/-- Virtual isOverdue: stored status active and daysOverdue positive. -/
def isOverdue (r : Rental) (now : Int) : Bool :=
  decide (r.status = RentalStatus.active) && decide (0 < daysOverdue r now)

/-- Schema validation of the date and fee fields: dueDate strictly after
rentalDate, returnDate at or after rentalDate when present, lateFee
nonnegative. -/
def validateDoc (r : Rental) : Bool :=
  decide (r.rentalDate < r.dueDate) &&
    (match r.returnDate with
     | none => true
     | some d => decide (r.rentalDate ≤ d)) &&
    decide (0 ≤ r.lateFee)

/-- The pre-save hook of rentalSchema: a modified, present returnDate forces
status returned; otherwise an active rental past due becomes overdue. -/
def preSaveHook (r : Rental) (modifiedReturnDate : Bool) (now : Int) : Rental :=
  if modifiedReturnDate ∧ r.returnDate.isSome then
    { r with status := RentalStatus.returned }
  else if r.status = RentalStatus.active ∧ 0 < daysOverdue r now then
    { r with status := RentalStatus.overdue }
  else r

/-- Document save: validation first, then the pre-save status hook.  The
flag records whether the returnDate path counts as modified for this save. -/
def save (r : Rental) (modifiedReturnDate : Bool) (now : Int) : Except String Rental :=
  if validateDoc r then .ok (preSaveHook r modifiedReturnDate now)
  else .error "ValidationError"

/-- Method returnBook of rentalSchema: guard against double return, set
returnDate to the current time and status to returned, then consult the
daysOverdue virtual for the late fee, then save.  The virtual is read only
after status was already flipped to returned. -/
def returnBook (r : Rental) (now : Int) : Except String Rental :=
  if r.status = RentalStatus.returned then .error "Book is already returned"
  else
    let r1 := { r with returnDate := some now, status := RentalStatus.returned }
    let r2 := if 0 < daysOverdue r1 now then
        { r1 with lateFee := daysOverdue r1 now * 1 }
      else r1
    save r2 true now

/-- Method calculateTotalFee of rentalSchema. -/
def calculateTotalFee (r : Rental) (baseRate : Int) : Int := baseRate + r.lateFee

end Rental

/-- The persisted store: the two collections, each an association list from
a numeric document id to the document.  Lookup returns the first entry
with the given id. -/
structure DB where
  books : List (Nat × Book)
  rentals : List (Nat × Rental)
deriving DecidableEq

/-- First entry with the given id, the findById primitive of the store. -/
def findById {α : Type} : List (Nat × α) → Nat → Option α
  | [], _ => none
  | (k, v) :: rest, id => if k = id then some v else findById rest id

/-- Persist a document under an id already present: every entry with that
id is overwritten in place. -/
def setById {α : Type} : List (Nat × α) → Nat → α → List (Nat × α)
  | [], _, _ => []
  | (k, w) :: rest, id, v => (if k = id then (id, v) else (k, w)) :: setById rest id v

/-- Replace the stored Book under the given id. -/
def setBook (db : DB) (id : Nat) (b : Book) : DB :=
  { db with books := setById db.books id b }

/-- Replace the stored Rental under the given id. -/
def setRental (db : DB) (id : Nat) (r : Rental) : DB :=
  { db with rentals := setById db.rentals id r }

/-- Errors surfaced by a controller call: an ApiError constructed in the
controller with its HTTP status code and message, or a plain thrown error
propagated from a model method or from mongoose validation, before the
error-handling middleware assigns it a status code. -/
inductive ControllerError where
  | apiError (statusCode : Nat) (message : String)
  | thrown (message : String)
deriving DecidableEq

/-- Request body of the return endpoint: validation admits an optional
returnDate and notes alongside the rental id. -/
structure ReturnRequestBody where
  rentalId : Nat
  returnDate : Option Int
  notes : Option String
deriving DecidableEq

namespace RentalController

/-- Controller rentBook: load the book, check canBeRented, check for an
existing rental with the same book, renterEmail and stored status active,
create and save the rental with rentalDate defaulted to now, then run the
rentBook method of the book and save the book again.  newId is the id the
store assigns to the created rental document.  Returns the response
together with the state left behind, also on failure. -/
def rentBook (db : DB) (bookId : Nat) (renterName renterEmail : String)
    (renterPhone : Option String) (dueDate : Int) (notes : Option String)
    (now : Int) (newId : Nat) : Except ControllerError Rental × DB :=
  match findById db.books bookId with
  | none => (.error (.apiError 404 "Book not found"), db)
  | some book =>
    if !book.canBeRented then
      (.error (.apiError 400 "Book is not available for rental"), db)
    else if db.rentals.any fun p =>
        decide (p.2.book = bookId) && decide (p.2.renterEmail = renterEmail) &&
          decide (p.2.status = RentalStatus.active) then
      (.error (.apiError 409 "You already have an active rental for this book"), db)
    else
      let rental : Rental :=
        { book := bookId, renterName := renterName, renterEmail := renterEmail,
          renterPhone := renterPhone, rentalDate := now, dueDate := dueDate,
          returnDate := none, status := RentalStatus.active, lateFee := 0,
          notes := notes }
      match rental.save true now with
      | .error m => (.error (.thrown m), db)
      | .ok rental1 =>
        let db1 := { db with rentals := db.rentals ++ [(newId, rental1)] }
        match book.rentBook with
        | .error m => (.error (.thrown m), db1)
        | .ok book1 =>
          let db2 := setBook db1 bookId book1
          match book1.save with
          | .error m => (.error (.thrown m), db2)
          | .ok book2 => (.ok rental1, setBook db2 bookId book2)

/-- Controller returnBook: only the rentalId is read from the request body;
a supplied returnDate or notes is never consulted.  Load the rental with
its populated book, reject a second return, run the returnBook method of
the rental, save the rental again, then run the returnBook method of the
populated book and save the book again.  The rental document stays
returned even when the book step fails afterwards. -/
def returnBook (db : DB) (body : ReturnRequestBody) (now : Int) :
    Except ControllerError Rental × DB :=
  match findById db.rentals body.rentalId with
  | none => (.error (.apiError 404 "Rental not found"), db)
  | some rental =>
    if rental.status = RentalStatus.returned then
      (.error (.apiError 400 "Book is already returned"), db)
    else
      match rental.returnBook now with
      | .error m => (.error (.thrown m), db)
      | .ok rental1 =>
        let db1 := setRental db body.rentalId rental1
        match rental1.save false now with
        | .error m => (.error (.thrown m), db1)
        | .ok rental2 =>
          let db2 := setRental db1 body.rentalId rental2
          match findById db2.books rental.book with
          | none => (.error (.thrown "TypeError"), db2)
          | some book =>
            match book.returnBook with
            | .error m => (.error (.thrown m), db2)
            | .ok book1 =>
              let db3 := setBook db2 rental.book book1
              match book1.save with
              | .error m => (.error (.thrown m), db3)
              | .ok book2 => (.ok rental2, setBook db3 rental.book book2)

/-- Controller updateRentalStatus: load the rental, forbid leaving the
returned state, set the status, replace the notes when a truthy notes
value is supplied, save.  The books collection is never consulted. -/
def updateRentalStatus (db : DB) (id : Nat) (status : RentalStatus)
    (notes : Option String) (now : Int) : Except ControllerError Rental × DB :=
  match findById db.rentals id with
  | none => (.error (.apiError 404 "Rental not found"), db)
  | some rental =>
    if rental.status = RentalStatus.returned ∧ status ≠ RentalStatus.returned then
      (.error (.apiError 400 "Cannot change status of returned rental"), db)
    else
      let r1 := { rental with status := status }
      let r2 := match notes with
        | some n => if n = "" then r1 else { r1 with notes := some n }
        | none => r1
      match r2.save false now with
      | .error m => (.error (.thrown m), db)
      | .ok r3 => (.ok r3, setRental db id r3)

end RentalController

/-- Update payload of the book update endpoint, restricted to the fields
the domain logic interacts with; an absent field is left unchanged. -/
structure BookUpdate where
  totalCopies : Option Int
  availableCopies : Option Int
  isActive : Option Bool
deriving DecidableEq

/-- Apply an update payload to a stored book, field by field. -/
def applyBookUpdate (b : Book) (u : BookUpdate) : Book :=
  { totalCopies := u.totalCopies.getD b.totalCopies,
    availableCopies := u.availableCopies.getD b.availableCopies,
    isActive := u.isActive.getD b.isActive }

namespace BookController

/-- Controller updateBook: load the current book, reject the update with a
400 error when the payload carries an availableCopies exceeding the
effective totalCopies, otherwise persist through findByIdAndUpdate, which
bypasses both document validation and the pre-save clamp hook. -/
def updateBook (db : DB) (id : Nat) (u : BookUpdate) :
    Except ControllerError Book × DB :=
  match findById db.books id with
  | none => (.error (.apiError 404 "Book not found"), db)
  | some currentBook =>
    let totalCopies := u.totalCopies.getD currentBook.totalCopies
    let persisted : Except ControllerError Book × DB :=
      let book := applyBookUpdate currentBook u
      (.ok book, setBook db id book)
    match u.availableCopies with
    | some a =>
      if totalCopies < a then
        (.error (.apiError 400 "Available copies cannot exceed total copies"), db)
      else persisted
    | none => persisted

end BookController

/-- One operation on a single Book document through the model methods. -/
inductive BookOp where
  | rent
  | ret
deriving DecidableEq

/-- Run one Book operation against the persisted document: a method that
throws leaves the persisted state unchanged. -/
def Book.applyOp (b : Book) (op : BookOp) : Book :=
  match op with
  | BookOp.rent => match b.rentBook with | .ok b1 => b1 | .error _ => b
  | BookOp.ret => match b.returnBook with | .ok b1 => b1 | .error _ => b

/-- Run a sequence of Book operations. -/
def Book.applyOps (b : Book) : List BookOp → Book
  | [] => b
  | op :: rest => (b.applyOp op).applyOps rest

/-- One controller request against the store. -/
inductive SysOp where
  | rent (bookId : Nat) (renterName renterEmail : String)
      (renterPhone : Option String) (dueDate : Int) (notes : Option String)
      (now : Int) (newId : Nat)
  | ret (body : ReturnRequestBody) (now : Int)
  | updateStatus (id : Nat) (status : RentalStatus) (notes : Option String) (now : Int)
  | updateBook (id : Nat) (u : BookUpdate)
deriving DecidableEq

/-- The state a controller request leaves behind. -/
def applySys (db : DB) : SysOp → DB
  | SysOp.rent bookId rn re rp dd nt now newId =>
      (RentalController.rentBook db bookId rn re rp dd nt now newId).2
  | SysOp.ret body now => (RentalController.returnBook db body now).2
  | SysOp.updateStatus id st nt now =>
      (RentalController.updateRentalStatus db id st nt now).2
  | SysOp.updateBook id u => (BookController.updateBook db id u).2

/-- Whether a controller call succeeded. -/
def resultIsOk {ε α : Type} : Except ε α → Bool
  | .ok _ => true
  | .error _ => false

/-- A book with five copies, all available. -/
def exBook : Book := { totalCopies := 5, availableCopies := 5, isActive := true }

/-- An active book with no available copy. -/
def exBook0 : Book := { totalCopies := 5, availableCopies := 0, isActive := true }

/-- A book with five copies, four available. -/
def exBook4 : Book := { totalCopies := 5, availableCopies := 4, isActive := true }

/-- An active rental of book 0, due one day after its rental date. -/
def exActiveRental : Rental :=
  { book := 0, renterName := "A", renterEmail := "a@b.c", renterPhone := none,
    rentalDate := 0, dueDate := msPerDay, returnDate := none,
    status := RentalStatus.active, lateFee := 0, notes := none }

/-- The same rental with stored status overdue. -/
def exOverdueRental : Rental := { exActiveRental with status := RentalStatus.overdue }

/-- The rental after being returned on day ten. -/
def exReturnedRental : Rental :=
  { exActiveRental with
    returnDate := some (10 * msPerDay)
    status := RentalStatus.returned }

/-- Store with one fully available book and no rental. -/
def exDBempty : DB := { books := [(0, exBook)], rentals := [] }

/-- Store with one fully available book and one active rental of it. -/
def exDB : DB := { books := [(0, exBook)], rentals := [(1, exActiveRental)] }

/-- Store with one fully available book and one overdue rental of it. -/
def exDBov : DB := { books := [(0, exBook)], rentals := [(1, exOverdueRental)] }

/-- Store with one book at four of five copies and one active rental of it. -/
def exDB4 : DB := { books := [(0, exBook4)], rentals := [(1, exActiveRental)] }

/-- Store with one fully available book and one returned rental of it. -/
def exDBret : DB := { books := [(0, exBook)], rentals := [(1, exReturnedRental)] }

/-- Store with one book that has no available copy and no rental. -/
def exDB5 : DB := { books := [(0, exBook0)], rentals := [] }

/-- Store reached from exDBempty by renting book 0 under rental id 7. -/
def exDBmid : DB := { books := [(0, exBook4)], rentals := [(7, exActiveRental)] }

/-- Store reached from exDBmid by returning rental 7 on day ten. -/
def exDBfin : DB := { books := [(0, exBook)], rentals := [(7, exReturnedRental)] }

/-! Helper lemmas about the store primitives and the model hooks. -/

theorem findById_setById_self {α : Type} {l : List (Nat × α)} {id : Nat} {v0 : α}
    (v : α) (h : findById l id = some v0) :
    findById (setById l id v) id = some v := by
  induction l with
  | nil => simp [findById] at h
  | cons p rest ih =>
    obtain ⟨k, w⟩ := p
    by_cases hk : k = id
    · subst hk
      simp only [setById, if_pos rfl]
      simp [findById]
    · simp only [setById, if_neg hk]
      simp only [findById, if_neg hk] at h ⊢
      exact ih h

theorem findById_setById_ne {α : Type} {l : List (Nat × α)} {k id : Nat} {v : α}
    (h : k ≠ id) : findById (setById l k v) id = findById l id := by
  induction l with
  | nil => simp [setById, findById]
  | cons p rest ih =>
    obtain ⟨k1, w⟩ := p
    by_cases hk : k1 = k
    · subst hk
      simp only [setById, if_pos rfl]
      simp only [findById, if_neg h]
      exact ih
    · simp only [setById, if_neg hk]
      simp only [findById]
      rw [ih]

theorem findById_append_some {α : Type} {l1 l2 : List (Nat × α)} {id : Nat} {v : α}
    (h : findById l1 id = some v) : findById (l1 ++ l2) id = some v := by
  induction l1 with
  | nil => simp [findById] at h
  | cons p rest ih =>
    obtain ⟨k, w⟩ := p
    by_cases hk : k = id
    · subst hk
      simp [findById] at h ⊢
      exact h
    · simp [findById, hk] at h ⊢
      exact ih h

theorem findById_append_of_none {α : Type} {l1 l2 : List (Nat × α)} {id : Nat}
    (h : findById l1 id = none) : findById (l1 ++ l2) id = findById l2 id := by
  induction l1 with
  | nil => simp [findById]
  | cons p rest ih =>
    obtain ⟨k, w⟩ := p
    by_cases hk : k = id
    · subst hk
      simp [findById] at h
    · simp [findById, hk] at h ⊢
      exact ih h

@[simp] theorem setBook_rentals (db : DB) (id : Nat) (b : Book) :
    (setBook db id b).rentals = db.rentals := rfl

@[simp] theorem setBook_books (db : DB) (id : Nat) (b : Book) :
    (setBook db id b).books = setById db.books id b := rfl

@[simp] theorem setRental_books (db : DB) (id : Nat) (r : Rental) :
    (setRental db id r).books = db.books := rfl

@[simp] theorem setRental_rentals (db : DB) (id : Nat) (r : Rental) :
    (setRental db id r).rentals = setById db.rentals id r := rfl

theorem ceilDiv_nonpos {a b : Int} (ha : a ≤ 0) (hb : 0 < b) : ceilDiv a b ≤ 0 := by
  have h := Int.fdiv_nonneg (a := -a) (b := b) (by omega) (by omega)
  unfold ceilDiv
  omega

@[simp] theorem Book.preSave_totalCopies (b : Book) :
    b.preSave.totalCopies = b.totalCopies := by
  unfold Book.preSave
  split <;> rfl

@[simp] theorem Book.preSave_isActive (b : Book) :
    b.preSave.isActive = b.isActive := by
  unfold Book.preSave
  split <;> rfl

theorem Book.preSave_idem (b : Book) : b.preSave.preSave = b.preSave := by
  unfold Book.preSave
  split <;> simp_all

theorem Book.validateDoc_preSave {b : Book} (h : b.validateDoc = true) :
    b.preSave.validateDoc = true := by
  unfold Book.validateDoc at h ⊢
  unfold Book.preSave
  split <;> simp_all
  omega

theorem Book.bookSave_eq_ok {b b2 : Book} :
    b.save = Except.ok b2 ↔ b.validateDoc = true ∧ b2 = b.preSave := by
  unfold Book.save
  split
  · rename_i hv
    constructor
    · intro h
      injection h with h1
      exact ⟨hv, h1.symm⟩
    · rintro ⟨-, rfl⟩
      rfl
  · rename_i hv
    constructor
    · intro h
      exact absurd h (by simp)
    · rintro ⟨hv2, -⟩
      exact absurd hv2 hv

theorem Rental.rentalSave_eq_ok {r r2 : Rental} {m : Bool} {now : Int} :
    r.save m now = Except.ok r2 ↔ r.validateDoc = true ∧ r2 = r.preSaveHook m now := by
  unfold Rental.save
  split
  · rename_i hv
    constructor
    · intro h
      injection h with h1
      exact ⟨hv, h1.symm⟩
    · rintro ⟨-, rfl⟩
      rfl
  · rename_i hv
    constructor
    · intro h
      exact absurd h (by simp)
    · rintro ⟨hv2, -⟩
      exact absurd hv2 hv

@[simp] theorem Rental.preSaveHook_book (r : Rental) (m : Bool) (now : Int) :
    (r.preSaveHook m now).book = r.book := by
  unfold Rental.preSaveHook
  split
  · rfl
  · split <;> rfl

@[simp] theorem Rental.preSaveHook_returnDate (r : Rental) (m : Bool) (now : Int) :
    (r.preSaveHook m now).returnDate = r.returnDate := by
  unfold Rental.preSaveHook
  split
  · rfl
  · split <;> rfl

@[simp] theorem Rental.preSaveHook_lateFee (r : Rental) (m : Bool) (now : Int) :
    (r.preSaveHook m now).lateFee = r.lateFee := by
  unfold Rental.preSaveHook
  split
  · rfl
  · split <;> rfl

@[simp] theorem Rental.preSaveHook_renterEmail (r : Rental) (m : Bool) (now : Int) :
    (r.preSaveHook m now).renterEmail = r.renterEmail := by
  unfold Rental.preSaveHook
  split
  · rfl
  · split <;> rfl

@[simp] theorem Rental.preSaveHook_rentalDate (r : Rental) (m : Bool) (now : Int) :
    (r.preSaveHook m now).rentalDate = r.rentalDate := by
  unfold Rental.preSaveHook
  split
  · rfl
  · split <;> rfl

@[simp] theorem Rental.preSaveHook_dueDate (r : Rental) (m : Bool) (now : Int) :
    (r.preSaveHook m now).dueDate = r.dueDate := by
  unfold Rental.preSaveHook
  split
  · rfl
  · split <;> rfl

theorem Rental.preSaveHook_status_returned {r : Rental} (m : Bool) (now : Int)
    (h : r.status = RentalStatus.returned) :
    (r.preSaveHook m now).status = RentalStatus.returned := by
  unfold Rental.preSaveHook
  split
  · rfl
  · split
    · rename_i hcond
      rw [h] at hcond
      exact absurd hcond.1 (by simp)
    · exact h

theorem Rental.preSaveHook_of_returned_not_modified {r : Rental} (now : Int)
    (h : r.status = RentalStatus.returned) : r.preSaveHook false now = r := by
  unfold Rental.preSaveHook
  split
  · rename_i hcond
    exact absurd hcond.1 (by simp)
  · split
    · rename_i hcond
      rw [h] at hcond
      exact absurd hcond.1 (by simp)
    · rfl

theorem Rental.daysOverdue_eq_zero_of_before_due {r : Rental} {now : Int}
    (h : now < r.dueDate) : r.daysOverdue now = 0 := by
  unfold Rental.daysOverdue
  have hle : ceilDiv (now - r.dueDate) msPerDay ≤ 0 :=
    ceilDiv_nonpos (by omega) (by norm_num [msPerDay])
  split
  · rfl
  · split
    · omega
    · rfl

theorem Rental.preSaveHook_fresh {r : Rental} {now : Int} (m : Bool)
    (hret : r.returnDate = none) (hdue : now < r.dueDate) :
    r.preSaveHook m now = r := by
  unfold Rental.preSaveHook
  split
  · rename_i hcond
    rw [hret] at hcond
    exact absurd hcond.2 (by simp)
  · split
    · rename_i hcond
      have h0 := Rental.daysOverdue_eq_zero_of_before_due (r := r) hdue
      have h2 := hcond.2
      omega
    · rfl

theorem Book.rentBook_bounds {b b1 : Book} (hr : b.rentBook = Except.ok b1) :
    0 ≤ b1.availableCopies ∧ b1.availableCopies ≤ b1.totalCopies := by
  unfold Book.rentBook at hr
  split at hr
  · exact absurd hr (by simp)
  · obtain ⟨hv, rfl⟩ := Book.bookSave_eq_ok.mp hr
    unfold Book.validateDoc at hv
    simp only [Bool.and_eq_true, decide_eq_true_eq] at hv
    unfold Book.preSave
    split <;> rename_i hc <;> simp at hc ⊢ <;> omega

theorem Book.returnBook_bounds {b b1 : Book} (hr : b.returnBook = Except.ok b1) :
    0 ≤ b1.availableCopies ∧ b1.availableCopies ≤ b1.totalCopies := by
  unfold Book.returnBook at hr
  split at hr
  · exact absurd hr (by simp)
  · obtain ⟨hv, rfl⟩ := Book.bookSave_eq_ok.mp hr
    unfold Book.validateDoc at hv
    simp only [Bool.and_eq_true, decide_eq_true_eq] at hv
    unfold Book.preSave
    split <;> rename_i hc <;> simp at hc ⊢ <;> omega

theorem Book.applyOp_bounds {b : Book} (op : BookOp)
    (h1 : 0 ≤ b.availableCopies) (h2 : b.availableCopies ≤ b.totalCopies) :
    0 ≤ (b.applyOp op).availableCopies ∧
      (b.applyOp op).availableCopies ≤ (b.applyOp op).totalCopies := by
  cases op with
  | rent =>
    cases hr : b.rentBook with
    | error m =>
      have he : b.applyOp BookOp.rent = b := by
        unfold Book.applyOp
        rw [hr]
      rw [he]
      exact ⟨h1, h2⟩
    | ok b1 =>
      have he : b.applyOp BookOp.rent = b1 := by
        unfold Book.applyOp
        rw [hr]
      rw [he]
      exact Book.rentBook_bounds hr
  | ret =>
    cases hr : b.returnBook with
    | error m =>
      have he : b.applyOp BookOp.ret = b := by
        unfold Book.applyOp
        rw [hr]
      rw [he]
      exact ⟨h1, h2⟩
    | ok b1 =>
      have he : b.applyOp BookOp.ret = b1 := by
        unfold Book.applyOp
        rw [hr]
      rw [he]
      exact Book.returnBook_bounds hr

/-- C1: starting from a Book state with 0 <= availableCopies <= totalCopies,
any sequence of the rentBook and returnBook model operations preserves
0 <= availableCopies <= totalCopies. -/
theorem availableCopies_bounds_preserved (b : Book) (ops : List BookOp)
    (h1 : 0 ≤ b.availableCopies) (h2 : b.availableCopies ≤ b.totalCopies) :
    0 ≤ (b.applyOps ops).availableCopies ∧
      (b.applyOps ops).availableCopies ≤ (b.applyOps ops).totalCopies := by
  induction ops generalizing b with
  | nil => exact ⟨h1, h2⟩
  | cons op rest ih =>
    have h := Book.applyOp_bounds op h1 h2
    show 0 ≤ ((b.applyOp op).applyOps rest).availableCopies ∧
      ((b.applyOp op).applyOps rest).availableCopies ≤
        ((b.applyOp op).applyOps rest).totalCopies
    exact ih (b.applyOp op) h.1 h.2

/-- Witness for C1 at the five-copy book and a rent, rent, return sequence. -/
theorem availableCopies_bounds_preserved_witness :
    (0 ≤ exBook.availableCopies ∧ exBook.availableCopies ≤ exBook.totalCopies) ∧
    (0 ≤ (exBook.applyOps [BookOp.rent, BookOp.rent, BookOp.ret]).availableCopies ∧
      (exBook.applyOps [BookOp.rent, BookOp.rent, BookOp.ret]).availableCopies ≤
        (exBook.applyOps [BookOp.rent, BookOp.rent, BookOp.ret]).totalCopies) :=
  ⟨⟨by decide, by decide⟩,
    availableCopies_bounds_preserved exBook [BookOp.rent, BookOp.rent, BookOp.ret]
      (by decide) (by decide)⟩

/-- C2: the returnBook method of the rental model never changes lateFee,
because status is set to returned before the daysOverdue virtual is read
and the virtual yields zero for a returned rental; the late-fee branch is
dead code, so a rental returned after its dueDate keeps lateFee 0 instead
of receiving daysOverdue times one currency unit. -/
theorem rentalReturnBook_leaves_lateFee_unchanged (r : Rental) (now : Int)
    (r2 : Rental) (h : r.returnBook now = Except.ok r2) : r2.lateFee = r.lateFee := by
  simp only [Rental.returnBook] at h
  split at h
  · exact absurd h (by simp)
  · have hz : Rental.daysOverdue
        { r with returnDate := some now, status := RentalStatus.returned } now = 0 := by
      unfold Rental.daysOverdue
      simp
    rw [hz] at h
    norm_num at h
    obtain ⟨hv, rfl⟩ := Rental.rentalSave_eq_ok.mp h
    simp

/-- Witness for C2: the one-day rental returned on day ten, nine days past
due, comes back with lateFee still equal to its starting lateFee. -/
theorem rentalReturnBook_leaves_lateFee_unchanged_witness :
    Rental.returnBook exActiveRental (10 * msPerDay) = Except.ok exReturnedRental ∧
    exReturnedRental.lateFee = exActiveRental.lateFee :=
  ⟨by rfl,
    rentalReturnBook_leaves_lateFee_unchanged exActiveRental (10 * msPerDay)
      exReturnedRental (by rfl)⟩

/-- C8 counterexample: updating the fully available five-copy book with
availableCopies ten is rejected with a 400 error and the store is left
unchanged, instead of being silently clamped to totalCopies. -/
theorem updateBook_rejects_instead_of_clamping :
    BookController.updateBook exDBempty 0
        { totalCopies := none, availableCopies := some 10, isActive := none } =
      (Except.error (ControllerError.apiError 400 "Available copies cannot exceed total copies"),
        exDBempty) := by rfl

/-- C8 amended: a write through the document save path silently clamps
availableCopies down to totalCopies, while the update operation does not
clamp: a payload whose availableCopies exceeds the effective totalCopies
is rejected with a 400 error and nothing is persisted. -/
theorem save_clamps_but_updateBook_rejects
    (b : Book) (db : DB) (id : Nat) (u : BookUpdate) (cb : Book) (a : Int)
    (hv : b.validateDoc = true)
    (hcb : findById db.books id = some cb)
    (ha : u.availableCopies = some a)
    (hgt : u.totalCopies.getD cb.totalCopies < a) :
    (b.save = Except.ok b.preSave ∧
      (b.totalCopies < b.availableCopies → b.preSave.availableCopies = b.totalCopies)) ∧
    BookController.updateBook db id u =
      (Except.error (ControllerError.apiError 400 "Available copies cannot exceed total copies"),
        db) := by
  refine ⟨⟨Book.bookSave_eq_ok.mpr ⟨hv, rfl⟩, ?_⟩, ?_⟩
  · intro hlt
    unfold Book.preSave
    rw [if_pos hlt]
  · simp only [BookController.updateBook, hcb, ha]
    rw [if_pos hgt]

/-- Witness for C8 amended at a book holding nine of five copies and an
update payload asking for ten. -/
theorem save_clamps_but_updateBook_rejects_witness :
    (Book.validateDoc { totalCopies := 5, availableCopies := 9, isActive := true } = true ∧
      findById exDBempty.books 0 = some exBook ∧
      BookUpdate.availableCopies { totalCopies := none, availableCopies := some 10, isActive := none } = some 10 ∧
      Option.getD (BookUpdate.totalCopies { totalCopies := none, availableCopies := some 10, isActive := none }) exBook.totalCopies < 10) ∧
    ((Book.save { totalCopies := 5, availableCopies := 9, isActive := true } =
        Except.ok (Book.preSave { totalCopies := 5, availableCopies := 9, isActive := true }) ∧
      ((5 : Int) < 9 →
        (Book.preSave { totalCopies := 5, availableCopies := 9, isActive := true }).availableCopies = 5)) ∧
    BookController.updateBook exDBempty 0
        { totalCopies := none, availableCopies := some 10, isActive := none } =
      (Except.error (ControllerError.apiError 400 "Available copies cannot exceed total copies"),
        exDBempty)) :=
  ⟨⟨by decide, by decide, by decide, by decide⟩,
    save_clamps_but_updateBook_rejects
      { totalCopies := 5, availableCopies := 9, isActive := true } exDBempty 0
      { totalCopies := none, availableCopies := some 10, isActive := none } exBook 10
      (by decide) (by decide) (by decide) (by decide)⟩

/-- C10: an updateRentalStatus call, allowed or not, leaves the books
collection of the store exactly as it was; only the return operation
touches Book availability. -/
theorem updateRentalStatus_leaves_books_unchanged (db : DB) (id : Nat)
    (st : RentalStatus) (nt : Option String) (now : Int) :
    (RentalController.updateRentalStatus db id st nt now).2.books = db.books := by
  simp only [RentalController.updateRentalStatus]
  split
  · rfl
  · split
    · rfl
    · split <;> simp

/-- C5: for an existing Book, the rent operation fails with the 400
InvalidOperation error for an unavailable book exactly when canBeRented is
false, and any failing rent call leaves the books collection untouched. -/
theorem rent_fails_invalidOperation_iff_not_rentable
    (db : DB) (bookId newId : Nat) (rn re : String) (rp : Option String)
    (dd : Int) (nt : Option String) (now : Int) (b : Book)
    (hb : findById db.books bookId = some b) :
    ((RentalController.rentBook db bookId rn re rp dd nt now newId).1 =
        Except.error (ControllerError.apiError 400 "Book is not available for rental") ↔
      b.canBeRented = false) ∧
    ∀ e, (RentalController.rentBook db bookId rn re rp dd nt now newId).1 = Except.error e →
      (RentalController.rentBook db bookId rn re rp dd nt now newId).2.books = db.books := by
  simp only [RentalController.rentBook, hb]
  split
  · rename_i hcb
    refine ⟨?_, ?_⟩
    · constructor
      · intro _
        simpa using hcb
      · intro _
        rfl
    · intro e _
      rfl
  · rename_i hcb
    have hcbt : b.canBeRented = true := by simpa using hcb
    split
    · refine ⟨?_, ?_⟩
      · constructor
        · intro h
          exact absurd h (by simp)
        · intro h
          rw [h] at hcbt
          exact absurd hcbt (by simp)
      · intro e _
        rfl
    · split
      · refine ⟨?_, ?_⟩
        · constructor
          · intro h
            exact absurd h (by simp)
          · intro h
            rw [h] at hcbt
            exact absurd hcbt (by simp)
        · intro e _
          rfl
      · split
        · refine ⟨?_, ?_⟩
          · constructor
            · intro h
              exact absurd h (by simp)
            · intro h
              rw [h] at hcbt
              exact absurd hcbt (by simp)
          · intro e _
            rfl
        · rename_i rental1 hsave book1 hrb
          split
          · rename_i m hbs
            exfalso
            unfold Book.rentBook at hrb
            split at hrb
            · exact absurd hrb (by simp)
            · obtain ⟨hv1, rfl⟩ := Book.bookSave_eq_ok.mp hrb
              have hv2 := Book.validateDoc_preSave hv1
              simp [Book.save, hv2] at hbs
          · refine ⟨?_, ?_⟩
            · constructor
              · intro h
                exact absurd h (by simp)
              · intro h
                rw [h] at hcbt
                exact absurd hcbt (by simp)
            · intro e h
              exact absurd h (by simp)

/-- Witness for C5 at a book with zero available copies. -/
theorem rent_fails_invalidOperation_iff_not_rentable_witness :
    findById exDB5.books 0 = some exBook0 ∧
    (((RentalController.rentBook exDB5 0 "A" "a@b.c" none msPerDay none 0 7).1 =
        Except.error (ControllerError.apiError 400 "Book is not available for rental") ↔
      exBook0.canBeRented = false) ∧
    ∀ e, (RentalController.rentBook exDB5 0 "A" "a@b.c" none msPerDay none 0 7).1 =
        Except.error e →
      (RentalController.rentBook exDB5 0 "A" "a@b.c" none msPerDay none 0 7).2.books =
        exDB5.books) :=
  ⟨by decide,
    rent_fails_invalidOperation_iff_not_rentable exDB5 0 7 "A" "a@b.c" none msPerDay
      none 0 exBook0 (by decide)⟩

/-- C7 counterexample: with a not-yet-returned rental of book 0 by the same
renter whose stored status is overdue, a second rent call for the same
book and renterEmail succeeds instead of failing with the 409 Conflict. -/
theorem overdue_rental_does_not_block_rent :
    findById exDBov.rentals 1 = some exOverdueRental ∧
    exOverdueRental.status ≠ RentalStatus.returned ∧
    exOverdueRental.book = 0 ∧ exOverdueRental.renterEmail = "a@b.c" ∧
    resultIsOk (RentalController.rentBook exDBov 0 "A" "a@b.c" none (20 * msPerDay)
        none (2 * msPerDay) 5).1 = true :=
  ⟨by decide, by decide, by decide, by decide, by decide⟩

/-- C7 amended: given an existing rentable book, rent fails with the 409
Conflict exactly when some stored rental carries the same book id, the
same renterEmail and stored status active; a not-yet-returned rental whose
stored status is overdue does not block a second rent. -/
theorem rent_conflict_iff_stored_active_rental
    (db : DB) (bookId newId : Nat) (rn re : String) (rp : Option String)
    (dd : Int) (nt : Option String) (now : Int) (b : Book)
    (hb : findById db.books bookId = some b) (hcb : b.canBeRented = true) :
    (RentalController.rentBook db bookId rn re rp dd nt now newId).1 =
        Except.error
          (ControllerError.apiError 409 "You already have an active rental for this book") ↔
      (db.rentals.any fun p => decide (p.2.book = bookId) &&
        decide (p.2.renterEmail = re) &&
        decide (p.2.status = RentalStatus.active)) = true := by
  simp only [RentalController.rentBook, hb]
  split
  · rename_i h400
    rw [hcb] at h400
    exact absurd h400 (by simp)
  · split
    swap
    · rename_i hconf
      constructor
      · intro h
        exfalso
        revert h
        split
        · intro h
          exact absurd h (by simp)
        · split
          · intro h
            exact absurd h (by simp)
          · split
            · intro h
              exact absurd h (by simp)
            · intro h
              exact absurd h (by simp)
      · intro h
        exact absurd h hconf
    rename_i hconf
    constructor
    · intro _
      exact hconf
    · intro _
      rfl

/-- Witness for C7 amended at a stored rental with status active. -/
theorem rent_conflict_iff_stored_active_rental_witness :
    findById exDB.books 0 = some exBook ∧ exBook.canBeRented = true ∧
    ((RentalController.rentBook exDB 0 "A" "a@b.c" none (20 * msPerDay) none
        (2 * msPerDay) 5).1 =
        Except.error
          (ControllerError.apiError 409 "You already have an active rental for this book") ↔
      (exDB.rentals.any fun p => decide (p.2.book = 0) &&
        decide (p.2.renterEmail = "a@b.c") &&
        decide (p.2.status = RentalStatus.active)) = true) :=
  ⟨by decide, by decide,
    rent_conflict_iff_stored_active_rental exDB 0 5 "A" "a@b.c" none (20 * msPerDay)
      none (2 * msPerDay) exBook (by decide) (by decide)⟩

/-- C9 counterexample: a return request carrying returnDate 500 comes back
with the rental stamped with the current time instead of the supplied
date; the body field is never read. -/
theorem supplied_returnDate_ignored :
    (RentalController.returnBook exDB4
        { rentalId := 1, returnDate := some 500, notes := none } (10 * msPerDay)).1 =
      Except.ok exReturnedRental ∧
    exReturnedRental.returnDate = some (10 * msPerDay) ∧
    (10 * msPerDay : Int) ≠ 500 :=
  ⟨by rfl, by rfl, by decide⟩

/-- C9 amended: a successful returnBook call always sets the returnDate of
the returned rental to the current time; a returnDate supplied in the
request body is accepted by validation but ignored by the controller. -/
theorem returnBook_sets_returnDate_to_now (db : DB) (body : ReturnRequestBody)
    (now : Int) (r2 : Rental) (db2 : DB)
    (h : RentalController.returnBook db body now = (Except.ok r2, db2)) :
    r2.returnDate = some now := by
  simp only [RentalController.returnBook] at h
  split at h
  · simp at h
  · split at h
    · simp at h
    · split at h
      · simp at h
      · rename_i rental hfind hnret rental1 hret
        split at h
        · simp at h
        · rename_i rental2 hsave2
          split at h
          · simp at h
          · split at h
            · simp at h
            · rename_i book1 hbret
              split at h
              · simp at h
              · simp only [Prod.mk.injEq, Except.ok.injEq] at h
                obtain ⟨rfl, -⟩ := h
                obtain ⟨-, rfl⟩ := Rental.rentalSave_eq_ok.mp hsave2
                simp only [Rental.preSaveHook_returnDate]
                simp only [Rental.returnBook] at hret
                split at hret
                · exact absurd hret (by simp)
                · split at hret
                  · obtain ⟨-, rfl⟩ := Rental.rentalSave_eq_ok.mp hret
                    simp
                  · obtain ⟨-, rfl⟩ := Rental.rentalSave_eq_ok.mp hret
                    simp

/-- Witness for C9 amended at the concrete store with one active rental. -/
theorem returnBook_sets_returnDate_to_now_witness :
    RentalController.returnBook exDB4 { rentalId := 1, returnDate := none, notes := none }
        (10 * msPerDay) = (Except.ok exReturnedRental, exDBret) ∧
    exReturnedRental.returnDate = some (10 * msPerDay) :=
  ⟨by rfl,
    returnBook_sets_returnDate_to_now exDB4
      { rentalId := 1, returnDate := none, notes := none } (10 * msPerDay)
      exReturnedRental exDBret (by rfl)⟩

/-- C4: after a successful returnBook, a second returnBook call on the same
rental fails with the 400 already-returned error and returns the store it
was given, unchanged. -/
theorem second_return_fails_and_preserves_state
    (db : DB) (body body2 : ReturnRequestBody) (now now2 : Int)
    (r2 : Rental) (db2 : DB)
    (hid : body2.rentalId = body.rentalId)
    (h : RentalController.returnBook db body now = (Except.ok r2, db2)) :
    RentalController.returnBook db2 body2 now2 =
      (Except.error (ControllerError.apiError 400 "Book is already returned"), db2) := by
  simp only [RentalController.returnBook] at h
  split at h
  · simp at h
  · split at h
    · simp at h
    · split at h
      · simp at h
      · rename_i x1 rental hfind hnret x2 rental1 hret
        split at h
        · simp at h
        · rename_i x3 rental2 hsave2
          split at h
          · simp at h
          · split at h
            · simp at h
            · rename_i x4 book hfindb x5 book1 hbret
              split at h
              · simp at h
              · simp only [Prod.mk.injEq, Except.ok.injEq] at h
                obtain ⟨rfl, hdb2⟩ := h
                have hst1 : rental1.status = RentalStatus.returned := by
                  simp only [Rental.returnBook] at hret
                  split at hret
                  · exact absurd hret (by simp)
                  · split at hret
                    · obtain ⟨-, rfl⟩ := Rental.rentalSave_eq_ok.mp hret
                      exact Rental.preSaveHook_status_returned _ _ rfl
                    · obtain ⟨-, rfl⟩ := Rental.rentalSave_eq_ok.mp hret
                      exact Rental.preSaveHook_status_returned _ _ rfl
                have hst2 : rental2.status = RentalStatus.returned := by
                  rw [(Rental.rentalSave_eq_ok.mp hsave2).2]
                  exact Rental.preSaveHook_status_returned _ _ hst1
                have hfind2 : findById db2.rentals body.rentalId = some rental2 := by
                  rw [← hdb2]
                  simp only [setBook_rentals, setRental_rentals]
                  exact findById_setById_self rental2
                    (findById_setById_self rental1 hfind)
                simp only [RentalController.returnBook, hid, hfind2]
                rw [if_pos hst2]

/-- Witness for C4 at the concrete store with one active rental. -/
theorem second_return_fails_and_preserves_state_witness :
    RentalController.returnBook exDB4 { rentalId := 1, returnDate := none, notes := none }
        (10 * msPerDay) = (Except.ok exReturnedRental, exDBret) ∧
    RentalController.returnBook exDBret { rentalId := 1, returnDate := none, notes := none }
        (11 * msPerDay) =
      (Except.error (ControllerError.apiError 400 "Book is already returned"), exDBret) :=
  ⟨by rfl,
    second_return_fails_and_preserves_state exDB4
      { rentalId := 1, returnDate := none, notes := none }
      { rentalId := 1, returnDate := none, notes := none }
      (10 * msPerDay) (11 * msPerDay) exReturnedRental exDBret (by rfl) (by rfl)⟩

theorem rentBook_preserves_rentals_lookup (db : DB) (bookId : Nat) (rn re : String)
    (rp : Option String) (dd : Int) (nt : Option String) (now : Int) (newId : Nat)
    (rid : Nat) (r : Rental) (hr : findById db.rentals rid = some r) :
    findById (RentalController.rentBook db bookId rn re rp dd nt now newId).2.rentals rid =
      some r := by
  simp only [RentalController.rentBook]
  split
  · exact hr
  · split
    · exact hr
    · split
      · exact hr
      · split
        · exact hr
        · split
          · exact findById_append_some hr
          · split
            · exact findById_append_some hr
            · exact findById_append_some hr

theorem updateBook_preserves_rentals (db : DB) (id : Nat) (u : BookUpdate) :
    (BookController.updateBook db id u).2.rentals = db.rentals := by
  simp only [BookController.updateBook]
  split
  · rfl
  · split
    · split
      · rfl
      · rfl
    · rfl

/-- C6 counterexample: updateRentalStatus can move an active rental to
status returned without ever setting returnDate, so a rental with status
returned and returnDate null is reachable. -/
theorem returned_without_returnDate_reachable :
    (RentalController.updateRentalStatus exDB 1 RentalStatus.returned none 0).1 =
      Except.ok { exActiveRental with status := RentalStatus.returned } ∧
    ({ exActiveRental with status := RentalStatus.returned } : Rental).status =
      RentalStatus.returned ∧
    ({ exActiveRental with status := RentalStatus.returned } : Rental).returnDate = none :=
  ⟨by rfl, by rfl, by rfl⟩

/-- C6 amended: returned is terminal — updateRentalStatus away from
returned fails with the 400 error and changes nothing, and every
controller operation leaves a returned rental returned with its returnDate
unchanged; however returnDate need not be set, since updateRentalStatus
can reach status returned without writing a returnDate. -/
theorem returned_is_terminal (db : DB) (rid : Nat) (r : Rental)
    (hr : findById db.rentals rid = some r) (hst : r.status = RentalStatus.returned) :
    (∀ st nt now, st ≠ RentalStatus.returned →
      RentalController.updateRentalStatus db rid st nt now =
        (Except.error (ControllerError.apiError 400 "Cannot change status of returned rental"),
          db)) ∧
    ∀ op : SysOp, ∃ rr : Rental,
      findById (applySys db op).rentals rid = some rr ∧
      rr.status = RentalStatus.returned ∧ rr.returnDate = r.returnDate := by
  constructor
  · intro st nt now hne
    simp only [RentalController.updateRentalStatus, hr]
    rw [if_pos ⟨hst, hne⟩]
  · intro op
    cases op with
    | rent bookId rn re rp dd nt now newId =>
      exact ⟨r, rentBook_preserves_rentals_lookup db bookId rn re rp dd nt now newId rid r hr,
        hst, rfl⟩
    | updateBook id u =>
      refine ⟨r, ?_, hst, rfl⟩
      show findById (BookController.updateBook db id u).2.rentals rid = some r
      rw [updateBook_preserves_rentals]
      exact hr
    | ret body now =>
      by_cases hbid : body.rentalId = rid
      · have hfind : findById db.rentals body.rentalId = some r := by
          rw [hbid]
          exact hr
        refine ⟨r, ?_, hst, rfl⟩
        simp only [applySys, RentalController.returnBook, hfind]
        rw [if_pos hst]
        exact hr
      · refine ⟨r, ?_, hst, rfl⟩
        simp only [applySys, RentalController.returnBook]
        split
        · exact hr
        · split
          · exact hr
          · split
            · exact hr
            · split
              · simp only [setRental_rentals]
                rw [findById_setById_ne hbid]
                exact hr
              · split
                · simp only [setRental_rentals]
                  rw [findById_setById_ne hbid, findById_setById_ne hbid]
                  exact hr
                · split
                  · simp only [setRental_rentals]
                    rw [findById_setById_ne hbid, findById_setById_ne hbid]
                    exact hr
                  · split
                    · simp only [setBook_rentals, setRental_rentals]
                      rw [findById_setById_ne hbid, findById_setById_ne hbid]
                      exact hr
                    · simp only [setBook_rentals, setRental_rentals]
                      rw [findById_setById_ne hbid, findById_setById_ne hbid]
                      exact hr
    | updateStatus id st nt now =>
      by_cases hbid : id = rid
      · subst hbid
        simp only [applySys, RentalController.updateRentalStatus, hr]
        by_cases hstret : st = RentalStatus.returned
        · subst hstret
          rw [if_neg (fun hcon => hcon.2 rfl)]
          split
          · exact ⟨r, hr, hst, rfl⟩
          · rename_i x6 r3 hsv
            refine ⟨r3, ?_, ?_, ?_⟩
            · simp only [setRental_rentals]
              exact findById_setById_self r3 hr
            · rw [(Rental.rentalSave_eq_ok.mp hsv).2]
              apply Rental.preSaveHook_status_returned
              cases nt with
              | none => rfl
              | some n => simp [apply_ite]
            · rw [(Rental.rentalSave_eq_ok.mp hsv).2]
              rw [Rental.preSaveHook_returnDate]
              cases nt with
              | none => rfl
              | some n => simp [apply_ite]
        · rw [if_pos ⟨hst, hstret⟩]
          exact ⟨r, hr, hst, rfl⟩
      · simp only [applySys, RentalController.updateRentalStatus]
        split
        · exact ⟨r, hr, hst, rfl⟩
        · split
          · exact ⟨r, hr, hst, rfl⟩
          · split
            · exact ⟨r, hr, hst, rfl⟩
            · refine ⟨r, ?_, hst, rfl⟩
              simp only [setRental_rentals]
              rw [findById_setById_ne hbid]
              exact hr

/-- Witness for C6 amended at the store holding one returned rental. -/
theorem returned_is_terminal_witness :
    (findById exDBret.rentals 1 = some exReturnedRental ∧
      exReturnedRental.status = RentalStatus.returned) ∧
    RentalController.updateRentalStatus exDBret 1 RentalStatus.active none 0 =
      (Except.error (ControllerError.apiError 400 "Cannot change status of returned rental"),
        exDBret) :=
  ⟨⟨by decide, by decide⟩,
    (returned_is_terminal exDBret 1 exReturnedRental (by decide) (by decide)).1
      RentalStatus.active none 0 (by decide)⟩

theorem Book.preSave_availableCopies (b : Book) :
    (Book.preSave b).availableCopies =
      if b.totalCopies < b.availableCopies then b.totalCopies else b.availableCopies := by
  unfold Book.preSave
  split <;> rfl

theorem Book.roundtrip_avail {b0 book1 bookB1 bookB2 : Book}
    (h1 : book1 = Book.preSave { b0 with availableCopies := b0.availableCopies - 1 })
    (hglt : ¬ book1.availableCopies ≥ book1.totalCopies)
    (h5 : bookB1 = Book.preSave { book1 with availableCopies := book1.availableCopies + 1 })
    (h6 : bookB2 = Book.preSave bookB1) :
    bookB2.availableCopies = b0.availableCopies := by
  subst h6 h5 h1
  simp only [Book.preSave_availableCopies, Book.preSave_totalCopies] at hglt ⊢
  simp at hglt ⊢
  split_ifs at hglt ⊢ <;> omega

/-- C3: a successful rent through the rental controller, immediately
followed by a successful return of the created rental, restores the
availableCopies of the book to its value before the rent. -/
theorem rent_return_roundtrip_restores_availableCopies
    (db : DB) (bookId newId : Nat) (rn re : String) (rp : Option String)
    (dd : Int) (nt : Option String) (now now2 : Int) (b0 : Book)
    (r1 r2 : Rental) (db1 db2 : DB)
    (hb0 : findById db.books bookId = some b0)
    (hfresh : findById db.rentals newId = none)
    (h1 : RentalController.rentBook db bookId rn re rp dd nt now newId =
      (Except.ok r1, db1))
    (h2 : RentalController.returnBook db1
        { rentalId := newId, returnDate := none, notes := none } now2 =
      (Except.ok r2, db2)) :
    ∃ b2 : Book, findById db2.books bookId = some b2 ∧
      b2.availableCopies = b0.availableCopies := by
  simp only [RentalController.rentBook, hb0] at h1
  split at h1
  · simp at h1
  · split at h1
    · simp at h1
    · split at h1
      · simp at h1
      · rename_i x1 rental1 hsave1
        split at h1
        · simp at h1
        · rename_i x2 book1 hrent
          split at h1
          · simp at h1
          · rename_i x3 book2 hbsave
            simp only [Prod.mk.injEq, Except.ok.injEq] at h1
            obtain ⟨rfl, hdb1⟩ := h1
            obtain ⟨hv1, hr1eq⟩ := Rental.rentalSave_eq_ok.mp hsave1
            simp [Rental.validateDoc] at hv1
            have hr1 : rental1 =
                { book := bookId, renterName := rn, renterEmail := re,
                  renterPhone := rp, rentalDate := now, dueDate := dd,
                  returnDate := none, status := RentalStatus.active, lateFee := 0,
                  notes := nt } := by
              rw [hr1eq]
              exact Rental.preSaveHook_fresh true rfl hv1
            simp only [Book.rentBook] at hrent
            split at hrent
            · exact absurd hrent (by simp)
            · obtain ⟨hv2, hbk1⟩ := Book.bookSave_eq_ok.mp hrent
              obtain ⟨hv3, hbk2⟩ := Book.bookSave_eq_ok.mp hbsave
              have hbk2b : book2 = book1 := by
                rw [hbk2, hbk1, Book.preSave_idem]
              have hrent1find : findById db1.rentals newId = some rental1 := by
                rw [← hdb1]
                simp only [setBook_rentals]
                show findById (db.rentals ++ [(newId, rental1)]) newId = some rental1
                rw [findById_append_of_none hfresh]
                simp [findById]
              have hfindB1 : findById db1.books bookId = some book2 := by
                rw [← hdb1]
                simp only [setBook_books]
                exact findById_setById_self book2 (findById_setById_self book1 hb0)
              simp only [RentalController.returnBook, hrent1find] at h2
              split at h2
              · simp at h2
              · split at h2
                · simp at h2
                · rename_i x4 rentalR hret2
                  split at h2
                  · simp at h2
                  · rename_i x5 rentalS hsaveS
                    split at h2
                    · simp at h2
                    · rename_i x6 bookB hfindB
                      split at h2
                      · simp at h2
                      · rename_i x7 bookB1 hbret2
                        split at h2
                        · simp at h2
                        · rename_i x8 bookB2 hbsave2
                          simp only [Prod.mk.injEq, Except.ok.injEq] at h2
                          obtain ⟨rfl, hdb2⟩ := h2
                          rw [hr1] at hfindB
                          simp only [setRental_books] at hfindB
                          rw [hfindB1] at hfindB
                          injection hfindB with hbb
                          simp only [Book.returnBook] at hbret2
                          split at hbret2
                          · exact absurd hbret2 (by simp)
                          · rename_i hglt
                            obtain ⟨hv5, hbk5⟩ := Book.bookSave_eq_ok.mp hbret2
                            obtain ⟨hv6, hbk6⟩ := Book.bookSave_eq_ok.mp hbsave2
                            refine ⟨bookB2, ?_, ?_⟩
                            · rw [← hdb2]
                              rw [hr1]
                              simp only [setBook_books, setRental_books]
                              exact findById_setById_self bookB2
                                (findById_setById_self bookB1 hfindB1)
                            · have hbball : bookB =
                                  Book.preSave
                                    { b0 with availableCopies := b0.availableCopies - 1 } := by
                                rw [← hbb, hbk2b, hbk1]
                              exact Book.roundtrip_avail hbball hglt hbk5 hbk6

/-- Witness for C3 at the one-book store: rent under rental id 7, return on
day ten, availableCopies is back at its pre-rent value five. -/
theorem rent_return_roundtrip_restores_availableCopies_witness :
    (findById exDBempty.books 0 = some exBook ∧ findById exDBempty.rentals 7 = none) ∧
    ∃ b2 : Book, findById exDBfin.books 0 = some b2 ∧
      b2.availableCopies = exBook.availableCopies :=
  ⟨⟨by decide, by decide⟩,
    rent_return_roundtrip_restores_availableCopies exDBempty 0 7 "A" "a@b.c" none
      msPerDay none 0 (10 * msPerDay) exBook exActiveRental exReturnedRental
      exDBmid exDBfin (by decide) (by decide) (by rfl) (by rfl)⟩

end BookRental
